import Mathlib

/-
Verification of the dialogue-orchestration core of the Fuzzy backend
(src/app.py).  The Python source is shallowly embedded: pure string
manipulation is modelled over List Char, per-session mutable state is
passed explicitly as a Session value, and the external collaborators
(generative model, database write, e-mail delivery, JSON decoding and
regex matching done by the Python standard library) are represented by
their results, handed to the embedded control flow as parameters.
-/

namespace FuzzyBackend

/-! Basic string operations mirroring the Python str methods used by
the source: containment (the in operator), lower(), strip(),
split(m)[0] and replace(m, empty). -/

/-- Model of a JSON scalar as it appears in the tag payloads: either
null or a string.  Python renders None as the text None when it is
interpolated into an f-string. -/
inductive JVal where
  | null
  | str (s : String)
deriving Repr, DecidableEq

/-- A Python value stored into the session: null becomes None, a JSON
string stays a string. -/
def jToOpt : JVal → Option String
  | JVal.null => none
  | JVal.str s => some s

/-- Interpolation of a Python value into an f-string. -/
def jShow : JVal → String
  | JVal.null => "None"
  | JVal.str s => s

/-- Python truthiness of a value: None and the empty string are falsy. -/
def jTruthy : JVal → Bool
  | JVal.null => false
  | JVal.str s => s ≠ ""

/-- Whether pat is a leading segment of l. -/
def hasPfx : List Char → List Char → Bool
  | [], _ => true
  | _ :: _, [] => false
  | p :: ps, c :: cs => p = c && hasPfx ps cs

/-- Whether pat occurs somewhere inside l (the Python in operator). -/
def subList (pat : List Char) : List Char → Bool
  | [] => pat.isEmpty
  | c :: cs => hasPfx pat (c :: cs) || subList pat cs

/-- Python: pat in s. -/
def containsSubstr (s pat : String) : Bool :=
  subList pat.toList s.toList

/-- ASCII lower-casing of one character, as Python lower() does on the
ASCII strings this code compares. -/
def lowerChar (c : Char) : Char :=
  if 65 ≤ c.toNat && c.toNat ≤ 90 then Char.ofNat (c.toNat + 32) else c

/-- Python s.lower(). -/
def lowerStr (s : String) : String :=
  String.mk (s.toList.map lowerChar)

/-- Whitespace recognised by Python strip() on the inputs in play. -/
def isWS (c : Char) : Bool :=
  c = ' ' || c = '\t' || c = '\n' || c = '\r'

/-- Python s.strip(). -/
def stripStr (s : String) : String :=
  String.mk (((s.toList.dropWhile isWS).reverse.dropWhile isWS).reverse)

/-- Characters of l strictly before the first occurrence of pat; the
whole of l when pat does not occur. -/
def beforeList (pat : List Char) : List Char → List Char
  | [] => []
  | c :: cs => if hasPfx pat (c :: cs) then [] else c :: beforeList pat cs

/-- Python s.split(pat)[0]. -/
def beforeMarker (s pat : String) : String :=
  String.mk (beforeList pat.toList s.toList)

/-- Remove every occurrence of pat from l; fuel-driven so that the
recursion is structural (fuel is the length of l, enough to consume
it). -/
def removeAllFuel (pat : List Char) : Nat → List Char → List Char
  | _, [] => []
  | 0, l => l
  | n + 1, c :: cs =>
      if hasPfx pat (c :: cs) then removeAllFuel pat n (cs.drop (pat.length - 1))
      else c :: removeAllFuel pat n cs

/-- Python s.replace(pat, empty string): delete all occurrences. -/
def removeAllOcc (s pat : String) : String :=
  String.mk (removeAllFuel pat.toList s.toList.length s.toList)

/-! The data model of src/app.py: the per-session record created at
line 564 and the JSON objects carried by the structured tags. -/

/-- A decoded JSON object payload (the result of json.loads on a tag
body), as a key/value list; lookups take the last binding, matching how
json.loads keeps the last duplicate key. -/
def BookingData := List (String × JVal)

instance : DecidableEq BookingData := by
  unfold BookingData; infer_instance

/-- Last binding of k in d (Python dict lookup on the decoded object). -/
def lookupJ : BookingData → String → Option JVal
  | [], _ => none
  | p :: rest, k =>
      match lookupJ rest k with
      | some v => some v
      | none => if p.1 = k then some p.2 else none

/-- Python: k in d. -/
def hasKey (d : BookingData) (k : String) : Bool :=
  (lookupJ d k).isSome

/-- Python d[k] on a key known to be present (JVal.null when absent, a
case the source only reaches for present keys). -/
def getJ (d : BookingData) (k : String) : JVal :=
  (lookupJ d k).getD JVal.null

/-- The booking_details slot map of a session: the four form fields,
each absent (None) or a string. -/
structure Slots where
  name : Option String
  email : Option String
  phone : Option String
  timing : Option String
deriving Repr, DecidableEq

def emptySlots : Slots := ⟨none, none, none, none⟩

/-- The user_details record stored after a successful booking: the raw
payload values for name, email and phone. -/
structure Contact where
  cname : JVal
  cemail : JVal
  cphone : JVal
deriving Repr, DecidableEq

/-- One history entry: the user message and the recorded bot text. -/
structure HistEntry where
  user : String
  bot : String
deriving Repr, DecidableEq

/-- The per-session record (app.py line 564): history, user_details,
last_appointment_timing and booking_details. -/
structure Session where
  history : List HistEntry
  user_details : Option Contact
  last_appointment_timing : Option String
  booking_details : Slots
deriving Repr, DecidableEq

def freshSession : Session := ⟨[], none, none, emptySlots⟩

/-! The FORM_UPDATE merge (app.py, update_booking_details, lines
573-590).  The regex match on FORM_UPDATE and the json.loads call are
library collaborators; their result is passed in as formMatch: none
when the regex does not match, some (g0, none) when it matches text g0
but the JSON body fails to decode, some (g0, some upd) when the body
decodes to the object upd. -/

/-- Body of the assignment loop: for a key among the four known slot
names the stored value is overwritten with the payload value; other
keys are ignored (the key in session booking_details test). -/
def applySlotKV (sl : Slots) (k : String) (v : JVal) : Slots :=
  if k = "name" then { sl with name := jToOpt v }
  else if k = "email" then { sl with email := jToOpt v }
  else if k = "phone" then { sl with phone := jToOpt v }
  else if k = "timing" then { sl with timing := jToOpt v }
  else sl

/-- The for key, value in update_data.items() loop. -/
def applyFormUpdateData : Slots → BookingData → Slots
  | sl, [] => sl
  | sl, p :: rest => applyFormUpdateData (applySlotKV sl p.1 p.2) rest

/-- update_booking_details: on a successful match and decode, merge the
payload into booking_details and return the response text with the
matched tag text removed and stripped; on no match or a decode error,
return the text and session unchanged. -/
def update_booking_details (s : Session) (response_text : String)
    (formMatch : Option (String × Option BookingData)) : String × Session :=
  match formMatch with
  | none => (response_text, s)
  | some (_, none) => (response_text, s)
  | some (g0, some upd) =>
      (stripStr (removeAllOcc response_text g0),
       { s with booking_details := applyFormUpdateData s.booking_details upd })

/-! store_appointment_and_send_emails (app.py lines 154-196).  The
database write and the e-mail delivery are external; dbOk says whether
the database statements committed without raising, emailOk is the
boolean returned by send_appointment_emails (which never raises: it
catches its own exceptions).  The function returns the (success,
message) pair exactly as the source builds it. -/

def store_appointment_and_send_emails (is_update dbOk emailOk : Bool) :
    Bool × String :=
  if dbOk then
    (true,
      if emailOk then
        if is_update then
          "Appointment update confirmation email sent successfully! Our team will contact you to confirm the new timing."
        else
          "Confirmation email sent successfully! Our team will contact you soon to finalize the scheduling."
      else
        if is_update then
          "Appointment updated successfully! Our team will contact you soon to confirm the new timing."
        else
          "Appointment booked successfully! Our team will contact you soon to confirm the details.")
  else
    (false,
      "There was an issue processing your appointment " ++
        (if is_update then "update" else "") ++
        ". Please try contacting us directly.")

/-! The fixed message texts of generate (app.py lines 674, 704-723,
748-761, 775). -/

def fallbackMsg : String :=
  "I apologize, but I\x27m having trouble processing your request right now. Could you please rephrase your message or try again?"

def techIssueMsg (isUpd : Bool) : String :=
  "⚠️ **Almost there!** I\x27ve collected your details, but there was a small technical issue. Please contact us directly to " ++
    (if isUpd then "update" else "book") ++ " your appointment."

def bookingSuccessMsg (email timing name : JVal) : String :=
  "🎉 **Perfect! Your appointment request has been submitted successfully!**\n\n**What happens next:**\n✅ Confirmation email sent to " ++
    jShow email ++
    "\n📞 Our team will contact you at your requested time of **" ++
    jShow timing ++
    "**\n💼 We\x27ll discuss your specific requirements during the call\nThank you for choosing Fuzionest, " ++
    jShow name ++ "! We\x27re excited to help you achieve your goals. 🚀\n"

def bookingFailMsg (name timing : JVal) (message : String) : String :=
  "⚠️ **Appointment details received!**\n                        \nThank you " ++
    jShow name ++ "! We\x27ve recorded your appointment request for " ++
    jShow timing ++ ".\n\n" ++ message

def updateSuccessMsg (newTiming oldTiming email name : JVal) : String :=
  "🔄 **Perfect! Your appointment timing has been updated successfully!**\n\n**Updated Details:**\n⏰ **New Time:** " ++
    jShow newTiming ++ "\n" ++
    (if jTruthy oldTiming then "🔄 **Previous Time:** " ++ jShow oldTiming else "") ++
    "\n\n**What happens next:**\n✅ Update confirmation email sent to " ++
    jShow email ++
    "\n📞 Our team will contact you at your new requested time of **" ++
    jShow newTiming ++
    "**\n💼 We\x27ll be ready to discuss your requirements at the new scheduled time\n\nThank you for updating your appointment, " ++
    jShow name ++ "! 🚀\n\n"

def updateFailMsg (name newTiming : JVal) (message : String) : String :=
  "⚠️ **Appointment timing updated!**\n                        \nThank you " ++
    jShow name ++ "! We\x27ve updated your appointment to " ++
    jShow newTiming ++ ".\n\n" ++ message

/-! The tag-dispatch part of generate (app.py lines 681-783). -/

/-- The operation kind returned by extract_booking_data. -/
inductive OpKind where
  | booking
  | update
deriving Repr, DecidableEq

/-- required_keys of the two dispatch arms (lines 689 and 732). -/
def requiredKeysFor : OpKind → List String
  | OpKind.booking => ["name", "email", "phone", "timing"]
  | OpKind.update => ["name", "email", "phone", "new_timing"]

def hasBookingMarker (s : String) : Bool :=
  containsSubstr s "BOOKING_COMPLETE:"

def hasUpdateMarker (s : String) : Bool :=
  containsSubstr s "UPDATE_COMPLETE:"

/-- A record of one invocation of the persistence collaborator
store_appointment_and_send_emails, with the arguments it was given. -/
structure PersistCall where
  pname : JVal
  pemail : JVal
  pphone : JVal
  ptiming : JVal
  isUpdate : Bool
  oldTiming : JVal
deriving Repr, DecidableEq

/-- Everything one turn produces: the final response chunks yielded to
the caller, the session as left behind, and the persistence calls that
were dispatched. -/
structure TurnOut where
  events : List String
  session : Session
  calls : List PersistCall
deriving Repr, DecidableEq

/-- The except-branch of the dispatch (lines 771-779): the three
ValueError raises land here; the user sees the text before the marker
plus the static technical-issue message, the history records only that
text, and no persistence call is made. -/
def failBranch (s1 : Session) (u full : String) : TurnOut :=
  let isU := hasUpdateMarker full
  let userPart := stripStr (beforeMarker full
    (if isU then "UPDATE_COMPLETE:" else "BOOKING_COMPLETE:"))
  { events := [userPart ++ "\n\n" ++ techIssueMsg isU],
    session := { s1 with history := s1.history ++ [⟨u, userPart⟩] },
    calls := [] }

/-- The UPDATE_COMPLETE arm (lines 688-729).  old_timing is taken from
the payload when the key is present, otherwise from the stored
last_appointment_timing (the session key always exists, so the
Previous timing literal of the source is unreachable).
last_appointment_timing is overwritten unconditionally, before the
success test. -/
def updateBranch (s1 : Session) (u full : String) (d : BookingData)
    (dbOk emailOk : Bool) : TurnOut :=
  let oldTiming : JVal :=
    match lookupJ d "old_timing" with
    | some v => v
    | none =>
        match s1.last_appointment_timing with
        | some t => JVal.str t
        | none => JVal.null
  let res := store_appointment_and_send_emails true dbOk emailOk
  let s2 := { s1 with last_appointment_timing := jToOpt (getJ d "new_timing") }
  let userPart := stripStr (beforeMarker full "UPDATE_COMPLETE:")
  let msg :=
    if res.1 then
      updateSuccessMsg (getJ d "new_timing") oldTiming (getJ d "email") (getJ d "name")
    else
      updateFailMsg (getJ d "name") (getJ d "new_timing") res.2
  { events := [msg],
    session := { s2 with history := s2.history ++ [⟨u, userPart⟩] },
    calls := [⟨getJ d "name", getJ d "email", getJ d "phone",
               getJ d "new_timing", true, oldTiming⟩] }

/-- The BOOKING_COMPLETE arm (lines 731-765).  user_details and
last_appointment_timing are set only when the persistence call reported
success; booking_details is not touched. -/
def bookingBranch (s1 : Session) (u full : String) (d : BookingData)
    (dbOk emailOk : Bool) : TurnOut :=
  let res := store_appointment_and_send_emails false dbOk emailOk
  let s2 :=
    if res.1 then
      { s1 with user_details := some ⟨getJ d "name", getJ d "email", getJ d "phone"⟩,
                last_appointment_timing := jToOpt (getJ d "timing") }
    else s1
  let userPart := stripStr (beforeMarker full "BOOKING_COMPLETE:")
  let msg :=
    if res.1 then bookingSuccessMsg (getJ d "email") (getJ d "timing") (getJ d "name")
    else bookingFailMsg (getJ d "name") (getJ d "timing") res.2
  { events := [msg],
    session := { s2 with history := s2.history ++ [⟨u, userPart⟩] },
    calls := [⟨getJ d "name", getJ d "email", getJ d "phone",
               getJ d "timing", false, JVal.null⟩] }

/-- Lines 681-783 of generate, from the point where the full model
output is in hand.  extractRes is the result of extract_booking_data
(a regex/JSON collaborator): none models both a parse failure and the
absence of any payload.  The empty-object test mirrors the Python
truthiness test and booking_data in the two arm guards; a falsy or
incomplete payload raises a ValueError that the except turns into
failBranch.  When no completion marker is present, the user sees the
tag-stripped text but the history records the raw model output. -/
def turnAfterModel (s : Session) (u full : String)
    (formMatch : Option (String × Option BookingData))
    (extractRes : Option (BookingData × OpKind))
    (dbOk emailOk : Bool) : TurnOut :=
  if hasBookingMarker full || hasUpdateMarker full then
    match extractRes with
    | some (d, OpKind.update) =>
        if d.isEmpty then failBranch (update_booking_details s full formMatch).2 u full
        else if (requiredKeysFor OpKind.update).all (fun k => hasKey d k) then
          updateBranch (update_booking_details s full formMatch).2 u full d dbOk emailOk
        else failBranch (update_booking_details s full formMatch).2 u full
    | some (d, OpKind.booking) =>
        if d.isEmpty then failBranch (update_booking_details s full formMatch).2 u full
        else if (requiredKeysFor OpKind.booking).all (fun k => hasKey d k) then
          bookingBranch (update_booking_details s full formMatch).2 u full d dbOk emailOk
        else failBranch (update_booking_details s full formMatch).2 u full
    | none => failBranch (update_booking_details s full formMatch).2 u full
  else
    { events := [(update_booking_details s full formMatch).1],
      session := { (update_booking_details s full formMatch).2 with
                   history := (update_booking_details s full formMatch).2.history ++ [⟨u, full⟩] },
      calls := [] }

/-! The retry loop around the generative-model call (app.py lines
663-679).  Each attempt either yields text or raises; the outcome of
attempt i is given by f i. -/

inductive AttemptOutcome where
  | ok (text : String)
  | err
deriving Repr, DecidableEq

def max_retries : Nat := 3

/-- What the loop produced: the accumulated response text (none when
the final attempt raised and the apology path was taken) and how many
time.sleep(1) delays ran. -/
structure RetryOut where
  text : Option String
  sleeps : Nat
deriving Repr, DecidableEq

/-- The for attempt in range(max_retries) loop: break on non-blank
text, return the apology on an exception in the last attempt, sleep
one second at the bottom of every non-exiting iteration. -/
def retryLoop (f : Nat → AttemptOutcome) : Nat → Nat → String → Nat → RetryOut
  | 0, _, acc, sl => ⟨some acc, sl⟩
  | n + 1, attempt, acc, sl =>
      match f attempt with
      | AttemptOutcome.ok t =>
          if stripStr t ≠ "" then ⟨some t, sl⟩
          else retryLoop f n (attempt + 1) t (sl + 1)
      | AttemptOutcome.err =>
          if attempt = max_retries - 1 then ⟨none, sl⟩
          else retryLoop f n (attempt + 1) acc (sl + 1)

def runModel (f : Nat → AttemptOutcome) : RetryOut :=
  retryLoop f max_retries 0 "" 0

/-- One whole turn of generate after the prompt is built: run the model
with retries; on exhaustion emit the static apology, record it in the
history and stop (no tag parsing, no persistence); otherwise continue
with the tag-dispatch logic. -/
def generateTurn (s : Session) (u : String) (f : Nat → AttemptOutcome)
    (formMatch : Option (String × Option BookingData))
    (extractRes : Option (BookingData × OpKind))
    (dbOk emailOk : Bool) : TurnOut :=
  match (runModel f).text with
  | none =>
      { events := [fallbackMsg],
        session := { s with history := s.history ++ [⟨u, fallbackMsg⟩] },
        calls := [] }
  | some full => turnAfterModel s u full formMatch extractRes dbOk emailOk

/-! The retrieval decision of generate (app.py lines 594-639). -/

def casualMessages : List String :=
  ["thank you", "thanks", "great", "ok", "okay", "perfect", "awesome",
   "cool", "nice", "good", "excellent", "wonderful", "amazing",
   "appreciate", "got it", "understood", "alright", "all right",
   "no need", "no problem", "sounds good", "no need thanks", "no need thank you"]

def affirmativeTokens : List String :=
  ["yes", "yep", "yeah", "ok", "okay", "sure", "go ahead", "please do", "yeah, go ahead"]

/-- The bot text of the last history entry, empty for a fresh session. -/
def lastBot (s : Session) : String :=
  match s.history.getLast? with
  | some h => h.bot
  | none => ""

/-- Lines 595-606: the booking-in-progress flag is inferred from the
last bot message alone, by keyword matching. -/
def bookingInProgress (s : Session) : Bool :=
  match s.history.getLast? with
  | none => false
  | some h =>
      let lb := lowerStr h.bot
      if containsSubstr lb "name and email" || containsSubstr lb "phone number" ||
         containsSubstr lb "preferred timing" then
        !containsSubstr lb "booking_complete" && !containsSubstr lb "update_complete" &&
          !containsSubstr lb "almost there"
      else false

/-- Lines 611-632: the should_search flag (post-booking casual message
suppression and agreed-to-book suppression). -/
def shouldSearch (s : Session) (user_message : String) : Bool :=
  let s1 :=
    if s.user_details.isSome then
      let uml := stripStr (lowerStr user_message)
      let lb := if s.history.isEmpty then "" else lowerStr (lastBot s)
      let wasB := containsSubstr lb "appointment request has been submitted successfully"
      let wasU := containsSubstr lb "appointment timing has been updated successfully"
      if (wasB || wasU) && casualMessages.any (fun c => containsSubstr uml c) then false
      else true
    else true
  if !s.history.isEmpty && s1 then
    let lb := lowerStr (lastBot s)
    if containsSubstr lb "connect you with our team" &&
       affirmativeTokens.contains (stripStr (lowerStr user_message)) then false
    else s1
  else s1

/-- Line 634: match_documents runs exactly when the booking flag is off
and should_search is still on. -/
def retrieverCalled (s : Session) (user_message : String) : Bool :=
  !bookingInProgress s && shouldSearch s user_message

/-! The chat request handler (app.py lines 549-570 plus the write-back
of the mutated session). -/

/-- Python data.get(k, default-empty) over the decoded request body. -/
def lookupStr : List (String × String) → String → Option String
  | [], _ => none
  | p :: rest, k =>
      match lookupStr rest k with
      | some v => some v
      | none => if p.1 = k then some p.2 else none

/-- The message field of the request body; missing body or missing key
give the empty string, as in the source. -/
def msgOf (data : Option (List (String × String))) : String :=
  match data with
  | none => ""
  | some kv => (lookupStr kv "message").getD ""

def getSession : List (String × Session) → String → Option Session
  | [], _ => none
  | p :: rest, sid => if p.1 = sid then some p.2 else getSession rest sid

def setSession : List (String × Session) → String → Session → List (String × Session)
  | [], sid, s => [(sid, s)]
  | p :: rest, sid, s =>
      if p.1 = sid then (sid, s) :: rest else p :: setSession rest sid s

/-- Outcome of one call to the chat route: an immediate error body (if
any), the session map afterwards, and the streamed response chunks. -/
structure ChatOut where
  errorMsg : Option String
  sessions : List (String × Session)
  events : List String
deriving Repr, DecidableEq

/-- The chat handler: strip the message; a blank message returns the
Message is required error before any session is looked up or created;
otherwise create the session if absent and run the turn. -/
def chatEndpoint (m : List (String × Session))
    (data : Option (List (String × String))) (sid : String)
    (f : Nat → AttemptOutcome)
    (formMatch : Option (String × Option BookingData))
    (extractRes : Option (BookingData × OpKind))
    (dbOk emailOk : Bool) : ChatOut :=
  let user_message := stripStr (msgOf data)
  if user_message = "" then ⟨some "Message is required", m, []⟩
  else
    let sess := (getSession m sid).getD freshSession
    let m1 := match getSession m sid with
              | some _ => m
              | none => m ++ [(sid, freshSession)]
    let out := generateTurn sess user_message f formMatch extractRes dbOk emailOk
    ⟨none, setSession m1 sid out.session, out.events⟩

/-- A payload for which extract_booking_data ends in the
validation-failure path of the dispatcher: no payload at all (parse
failure), a falsy empty object, or an object missing one of the
required keys of its operation. -/
def extractInvalid (ex : Option (BookingData × OpKind)) : Prop :=
  ex = none ∨ ∃ d op, ex = some (d, op) ∧
    (d = [] ∨ (requiredKeysFor op).all (fun k => hasKey d k) = false)

/-! Concrete inputs used by the counterexamples and witnesses below. -/

def c1d : BookingData :=
  [("name", JVal.str ""), ("email", JVal.str "a@b.c"),
   ("phone", JVal.str "12345678"), ("timing", JVal.str "Friday 2 PM")]

def c1full : String := "Done! BOOKING_COMPLETE: payload"

def c2s : Session :=
  ⟨[], some ⟨JVal.str "A", JVal.str "e@x.c", JVal.str "12345678"⟩,
   some "Friday 2 PM", emptySlots⟩

def c2d : BookingData :=
  [("name", JVal.str "A"), ("email", JVal.str "e@x.c"),
   ("phone", JVal.str "12345678"), ("new_timing", JVal.str "Monday 10 AM")]

def c2full : String := "Ok! UPDATE_COMPLETE: payload"

def c3s : Session :=
  ⟨[], none, none,
   ⟨some "Alice", some "alice@x.com", some "12345678", some "Friday 2 PM"⟩⟩

def c3d : BookingData :=
  [("name", JVal.str "Alice"), ("email", JVal.str "alice@x.com"),
   ("phone", JVal.str "12345678"), ("timing", JVal.str "Friday 2 PM")]

def c3full : String := "Great! BOOKING_COMPLETE: payload"

def c4s : Session := ⟨[], none, none, ⟨some "Alice", some "a@x.c", some "1", none⟩⟩

def c4tag : String := "FORM_UPDATE:\x7b\"name\":null\x7d"

def c5s : Session :=
  ⟨[⟨"hi", "Hello! How can I help?"⟩], none, none,
   ⟨some "Alice", none, none, none⟩⟩

def c5bip : Session :=
  ⟨[⟨"book a meeting", "Could you share your name and email?"⟩], none, none, emptySlots⟩

def c6full : String := "Got it! FORM_UPDATE:\x7b\"name\":\"Jo\"\x7d Next?"

def c6fm : Option (String × Option BookingData) :=
  some ("FORM_UPDATE:\x7b\"name\":\"Jo\"\x7d", some [("name", JVal.str "Jo")])

def c6nom : String := "Hello there"

def c8full : String := "Got your details! BOOKING_COMPLETE:\x7b\"name\":\"Bob\""

/-! Helper lemmas about the embedded operations. -/

theorem store_fst (is_update dbOk emailOk : Bool) :
    (store_appointment_and_send_emails is_update dbOk emailOk).1 = dbOk := by
  cases dbOk <;> rfl

theorem upd_none (s : Session) (t : String) :
    update_booking_details s t none = (t, s) := rfl

theorem upd_history (s : Session) (t : String)
    (fm : Option (String × Option BookingData)) :
    (update_booking_details s t fm).2.history = s.history := by
  rcases fm with _ | ⟨g0, _ | u⟩ <;> rfl

theorem upd_user_details (s : Session) (t : String)
    (fm : Option (String × Option BookingData)) :
    (update_booking_details s t fm).2.user_details = s.user_details := by
  rcases fm with _ | ⟨g0, _ | u⟩ <;> rfl

theorem upd_last (s : Session) (t : String)
    (fm : Option (String × Option BookingData)) :
    (update_booking_details s t fm).2.last_appointment_timing = s.last_appointment_timing := by
  rcases fm with _ | ⟨g0, _ | u⟩ <;> rfl

theorem failBranch_calls (s1 : Session) (u full : String) :
    (failBranch s1 u full).calls = [] := rfl

theorem failBranch_events (s1 : Session) (u full : String) :
    (failBranch s1 u full).events =
      [stripStr (beforeMarker full
          (if hasUpdateMarker full then "UPDATE_COMPLETE:" else "BOOKING_COMPLETE:")) ++
        "\n\n" ++ techIssueMsg (hasUpdateMarker full)] := rfl

theorem failBranch_history (s1 : Session) (u full : String) :
    (failBranch s1 u full).session.history =
      s1.history ++ [⟨u, stripStr (beforeMarker full
        (if hasUpdateMarker full then "UPDATE_COMPLETE:" else "BOOKING_COMPLETE:"))⟩] := rfl

theorem failBranch_bd (s1 : Session) (u full : String) :
    (failBranch s1 u full).session.booking_details = s1.booking_details := rfl

theorem failBranch_ud (s1 : Session) (u full : String) :
    (failBranch s1 u full).session.user_details = s1.user_details := rfl

theorem failBranch_last (s1 : Session) (u full : String) :
    (failBranch s1 u full).session.last_appointment_timing = s1.last_appointment_timing := rfl

theorem updateBranch_ud (s1 : Session) (u full : String) (d : BookingData)
    (dbOk emailOk : Bool) :
    (updateBranch s1 u full d dbOk emailOk).session.user_details = s1.user_details := rfl

theorem updateBranch_last (s1 : Session) (u full : String) (d : BookingData)
    (dbOk emailOk : Bool) :
    (updateBranch s1 u full d dbOk emailOk).session.last_appointment_timing =
      jToOpt (getJ d "new_timing") := rfl

theorem updateBranch_bd (s1 : Session) (u full : String) (d : BookingData)
    (dbOk emailOk : Bool) :
    (updateBranch s1 u full d dbOk emailOk).session.booking_details = s1.booking_details := rfl

theorem bookingBranch_calls (s1 : Session) (u full : String) (d : BookingData)
    (dbOk emailOk : Bool) :
    (bookingBranch s1 u full d dbOk emailOk).calls =
      [⟨getJ d "name", getJ d "email", getJ d "phone", getJ d "timing", false, JVal.null⟩] := rfl

theorem bookingBranch_ud_true (s1 : Session) (u full : String) (d : BookingData)
    (emailOk : Bool) :
    (bookingBranch s1 u full d true emailOk).session.user_details =
      some ⟨getJ d "name", getJ d "email", getJ d "phone"⟩ := rfl

theorem bookingBranch_last_true (s1 : Session) (u full : String) (d : BookingData)
    (emailOk : Bool) :
    (bookingBranch s1 u full d true emailOk).session.last_appointment_timing =
      jToOpt (getJ d "timing") := rfl

theorem bookingBranch_ud_false (s1 : Session) (u full : String) (d : BookingData)
    (emailOk : Bool) :
    (bookingBranch s1 u full d false emailOk).session.user_details = s1.user_details := rfl

theorem bookingBranch_last_false (s1 : Session) (u full : String) (d : BookingData)
    (emailOk : Bool) :
    (bookingBranch s1 u full d false emailOk).session.last_appointment_timing =
      s1.last_appointment_timing := rfl

theorem bookingBranch_bd (s1 : Session) (u full : String) (d : BookingData)
    (dbOk emailOk : Bool) :
    (bookingBranch s1 u full d dbOk emailOk).session.booking_details = s1.booking_details := by
  cases dbOk <;> rfl

theorem turnAfterModel_ex_none (s : Session) (u full : String)
    (fm : Option (String × Option BookingData)) (dbOk emailOk : Bool)
    (hm : (hasBookingMarker full || hasUpdateMarker full) = true) :
    turnAfterModel s u full fm none dbOk emailOk =
      failBranch (update_booking_details s full fm).2 u full := by
  unfold turnAfterModel
  rw [hm]
  rfl

theorem turnAfterModel_booking_empty (s : Session) (u full : String)
    (fm : Option (String × Option BookingData)) (dbOk emailOk : Bool)
    (hm : (hasBookingMarker full || hasUpdateMarker full) = true) :
    turnAfterModel s u full fm (some ([], OpKind.booking)) dbOk emailOk =
      failBranch (update_booking_details s full fm).2 u full := by
  unfold turnAfterModel
  rw [hm]
  rfl

theorem turnAfterModel_booking_invalid (s : Session) (u full : String)
    (fm : Option (String × Option BookingData)) (d : BookingData) (dbOk emailOk : Bool)
    (hm : (hasBookingMarker full || hasUpdateMarker full) = true)
    (hd : d.isEmpty = false)
    (hk : (requiredKeysFor OpKind.booking).all (fun k => hasKey d k) = false) :
    turnAfterModel s u full fm (some (d, OpKind.booking)) dbOk emailOk =
      failBranch (update_booking_details s full fm).2 u full := by
  unfold turnAfterModel
  simp [hm, hd, hk]

theorem turnAfterModel_booking_valid (s : Session) (u full : String)
    (fm : Option (String × Option BookingData)) (d : BookingData) (dbOk emailOk : Bool)
    (hm : (hasBookingMarker full || hasUpdateMarker full) = true)
    (hd : d.isEmpty = false)
    (hk : (requiredKeysFor OpKind.booking).all (fun k => hasKey d k) = true) :
    turnAfterModel s u full fm (some (d, OpKind.booking)) dbOk emailOk =
      bookingBranch (update_booking_details s full fm).2 u full d dbOk emailOk := by
  unfold turnAfterModel
  simp [hm, hd, hk]

theorem turnAfterModel_update_empty (s : Session) (u full : String)
    (fm : Option (String × Option BookingData)) (dbOk emailOk : Bool)
    (hm : (hasBookingMarker full || hasUpdateMarker full) = true) :
    turnAfterModel s u full fm (some ([], OpKind.update)) dbOk emailOk =
      failBranch (update_booking_details s full fm).2 u full := by
  unfold turnAfterModel
  rw [hm]
  rfl

theorem turnAfterModel_update_invalid (s : Session) (u full : String)
    (fm : Option (String × Option BookingData)) (d : BookingData) (dbOk emailOk : Bool)
    (hm : (hasBookingMarker full || hasUpdateMarker full) = true)
    (hd : d.isEmpty = false)
    (hk : (requiredKeysFor OpKind.update).all (fun k => hasKey d k) = false) :
    turnAfterModel s u full fm (some (d, OpKind.update)) dbOk emailOk =
      failBranch (update_booking_details s full fm).2 u full := by
  unfold turnAfterModel
  simp [hm, hd, hk]

theorem turnAfterModel_update_valid (s : Session) (u full : String)
    (fm : Option (String × Option BookingData)) (d : BookingData) (dbOk emailOk : Bool)
    (hm : (hasBookingMarker full || hasUpdateMarker full) = true)
    (hd : d.isEmpty = false)
    (hk : (requiredKeysFor OpKind.update).all (fun k => hasKey d k) = true) :
    turnAfterModel s u full fm (some (d, OpKind.update)) dbOk emailOk =
      updateBranch (update_booking_details s full fm).2 u full d dbOk emailOk := by
  unfold turnAfterModel
  simp [hm, hd, hk]

theorem turnAfterModel_nomarker (s : Session) (u full : String)
    (fm : Option (String × Option BookingData))
    (ex : Option (BookingData × OpKind)) (dbOk emailOk : Bool)
    (hm : (hasBookingMarker full || hasUpdateMarker full) = false) :
    turnAfterModel s u full fm ex dbOk emailOk =
      { events := [(update_booking_details s full fm).1],
        session := { (update_booking_details s full fm).2 with
                     history := (update_booking_details s full fm).2.history ++ [⟨u, full⟩] },
        calls := [] } := by
  unfold turnAfterModel
  rw [hm]
  rfl

theorem listNonEmpty_isEmpty {α : Type} (d : List α) (h : d ≠ []) :
    d.isEmpty = false := by
  cases d with
  | nil => exact absurd rfl h
  | cons p rest => rfl

theorem applySlotKV_name (sl : Slots) (k : String) (v : JVal) :
    (applySlotKV sl k v).name = if k = "name" then jToOpt v else sl.name := by
  unfold applySlotKV
  by_cases h1 : k = "name"
  · simp [h1]
  · simp only [if_neg h1]
    by_cases h2 : k = "email"
    · simp [h2]
    · simp only [if_neg h2]
      by_cases h3 : k = "phone"
      · simp [h3]
      · simp only [if_neg h3]
        by_cases h4 : k = "timing"
        · simp [h4]
        · simp [h4]

theorem applySlotKV_email (sl : Slots) (k : String) (v : JVal) :
    (applySlotKV sl k v).email = if k = "email" then jToOpt v else sl.email := by
  unfold applySlotKV
  by_cases h1 : k = "name"
  · subst h1
    simp
  · simp only [if_neg h1]
    by_cases h2 : k = "email"
    · simp [h2]
    · simp only [if_neg h2]
      by_cases h3 : k = "phone"
      · simp [h2, h3]
      · simp only [if_neg h3]
        by_cases h4 : k = "timing"
        · simp [h2, h4]
        · simp [h2, h4]

theorem applySlotKV_phone (sl : Slots) (k : String) (v : JVal) :
    (applySlotKV sl k v).phone = if k = "phone" then jToOpt v else sl.phone := by
  unfold applySlotKV
  by_cases h1 : k = "name"
  · subst h1
    simp
  · simp only [if_neg h1]
    by_cases h2 : k = "email"
    · subst h2
      simp
    · simp only [if_neg h2]
      by_cases h3 : k = "phone"
      · simp [h3]
      · simp only [if_neg h3]
        by_cases h4 : k = "timing"
        · simp [h3, h4]
        · simp [h3, h4]

theorem applySlotKV_timing (sl : Slots) (k : String) (v : JVal) :
    (applySlotKV sl k v).timing = if k = "timing" then jToOpt v else sl.timing := by
  unfold applySlotKV
  by_cases h1 : k = "name"
  · subst h1
    simp
  · simp only [if_neg h1]
    by_cases h2 : k = "email"
    · subst h2
      simp
    · simp only [if_neg h2]
      by_cases h3 : k = "phone"
      · subst h3
        simp
      · simp only [if_neg h3]
        by_cases h4 : k = "timing"
        · simp [h4]
        · simp [h4]

theorem applyFU_name : ∀ (d : BookingData) (sl : Slots),
    (applyFormUpdateData sl d).name =
      match lookupJ d "name" with
      | none => sl.name
      | some v => jToOpt v := by
  intro d
  induction d with
  | nil => intro sl; rfl
  | cons p rest ih =>
      intro sl
      rw [show applyFormUpdateData sl (p :: rest) =
            applyFormUpdateData (applySlotKV sl p.1 p.2) rest from rfl, ih]
      rw [show lookupJ (p :: rest) "name" =
            (match lookupJ rest "name" with
             | some v => some v
             | none => if p.1 = "name" then some p.2 else none) from rfl]
      cases hres : lookupJ rest "name" with
      | some v => rfl
      | none =>
          by_cases hp : p.1 = "name"
          · rw [if_pos hp]
            show (applySlotKV sl p.1 p.2).name = jToOpt p.2
            rw [applySlotKV_name, if_pos hp]
          · rw [if_neg hp]
            show (applySlotKV sl p.1 p.2).name = sl.name
            rw [applySlotKV_name, if_neg hp]

theorem applyFU_email : ∀ (d : BookingData) (sl : Slots),
    (applyFormUpdateData sl d).email =
      match lookupJ d "email" with
      | none => sl.email
      | some v => jToOpt v := by
  intro d
  induction d with
  | nil => intro sl; rfl
  | cons p rest ih =>
      intro sl
      rw [show applyFormUpdateData sl (p :: rest) =
            applyFormUpdateData (applySlotKV sl p.1 p.2) rest from rfl, ih]
      rw [show lookupJ (p :: rest) "email" =
            (match lookupJ rest "email" with
             | some v => some v
             | none => if p.1 = "email" then some p.2 else none) from rfl]
      cases hres : lookupJ rest "email" with
      | some v => rfl
      | none =>
          by_cases hp : p.1 = "email"
          · rw [if_pos hp]
            show (applySlotKV sl p.1 p.2).email = jToOpt p.2
            rw [applySlotKV_email, if_pos hp]
          · rw [if_neg hp]
            show (applySlotKV sl p.1 p.2).email = sl.email
            rw [applySlotKV_email, if_neg hp]

theorem applyFU_phone : ∀ (d : BookingData) (sl : Slots),
    (applyFormUpdateData sl d).phone =
      match lookupJ d "phone" with
      | none => sl.phone
      | some v => jToOpt v := by
  intro d
  induction d with
  | nil => intro sl; rfl
  | cons p rest ih =>
      intro sl
      rw [show applyFormUpdateData sl (p :: rest) =
            applyFormUpdateData (applySlotKV sl p.1 p.2) rest from rfl, ih]
      rw [show lookupJ (p :: rest) "phone" =
            (match lookupJ rest "phone" with
             | some v => some v
             | none => if p.1 = "phone" then some p.2 else none) from rfl]
      cases hres : lookupJ rest "phone" with
      | some v => rfl
      | none =>
          by_cases hp : p.1 = "phone"
          · rw [if_pos hp]
            show (applySlotKV sl p.1 p.2).phone = jToOpt p.2
            rw [applySlotKV_phone, if_pos hp]
          · rw [if_neg hp]
            show (applySlotKV sl p.1 p.2).phone = sl.phone
            rw [applySlotKV_phone, if_neg hp]

theorem applyFU_timing : ∀ (d : BookingData) (sl : Slots),
    (applyFormUpdateData sl d).timing =
      match lookupJ d "timing" with
      | none => sl.timing
      | some v => jToOpt v := by
  intro d
  induction d with
  | nil => intro sl; rfl
  | cons p rest ih =>
      intro sl
      rw [show applyFormUpdateData sl (p :: rest) =
            applyFormUpdateData (applySlotKV sl p.1 p.2) rest from rfl, ih]
      rw [show lookupJ (p :: rest) "timing" =
            (match lookupJ rest "timing" with
             | some v => some v
             | none => if p.1 = "timing" then some p.2 else none) from rfl]
      cases hres : lookupJ rest "timing" with
      | some v => rfl
      | none =>
          by_cases hp : p.1 = "timing"
          · rw [if_pos hp]
            show (applySlotKV sl p.1 p.2).timing = jToOpt p.2
            rw [applySlotKV_timing, if_pos hp]
          · rw [if_neg hp]
            show (applySlotKV sl p.1 p.2).timing = sl.timing
            rw [applySlotKV_timing, if_neg hp]

/-! Claim C1. -/

/-- C1, counterexample: the dispatcher checks only that the four keys
are present in the BOOKING_COMPLETE payload, not that their values are
non-empty; a payload whose name field is the empty string is still
dispatched to the persistence collaborator, refuting the claim that a
booking-completion action is dispatched only when all four fields are
simultaneously present and non-empty. -/
theorem c1_counterexample :
    (turnAfterModel freshSession "book it" c1full none
        (some (c1d, OpKind.booking)) true true).calls ≠ [] ∧
    getJ c1d "name" = JVal.str "" := by
  exact ⟨by decide, by decide⟩

/-- C1, amended: on a turn carrying a BOOKING_COMPLETE payload, a
persistence call in create mode is dispatched exactly when the payload
is a non-empty object containing all four keys name, email, phone and
timing (the values are not inspected); when the payload is empty or
missing any key, no persistence call is made and the turn ends in the
validation-failure path with the prefix text plus the static
technical-issue message. -/
theorem c1_booking_dispatch (s : Session) (u full : String)
    (fm : Option (String × Option BookingData)) (d : BookingData)
    (dbOk emailOk : Bool)
    (hb : hasBookingMarker full = true) :
    ((d = [] ∨ (requiredKeysFor OpKind.booking).all (fun k => hasKey d k) = false) →
      (turnAfterModel s u full fm (some (d, OpKind.booking)) dbOk emailOk).calls = [] ∧
      (turnAfterModel s u full fm (some (d, OpKind.booking)) dbOk emailOk).events =
        [stripStr (beforeMarker full
            (if hasUpdateMarker full then "UPDATE_COMPLETE:" else "BOOKING_COMPLETE:")) ++
          "\n\n" ++ techIssueMsg (hasUpdateMarker full)]) ∧
    (d ≠ [] → (requiredKeysFor OpKind.booking).all (fun k => hasKey d k) = true →
      (turnAfterModel s u full fm (some (d, OpKind.booking)) dbOk emailOk).calls =
        [⟨getJ d "name", getJ d "email", getJ d "phone", getJ d "timing",
          false, JVal.null⟩]) := by
  have hm : (hasBookingMarker full || hasUpdateMarker full) = true := by
    rw [hb]; rfl
  constructor
  · intro h
    have hfail : turnAfterModel s u full fm (some (d, OpKind.booking)) dbOk emailOk =
        failBranch (update_booking_details s full fm).2 u full := by
      cases d with
      | nil => exact turnAfterModel_booking_empty s u full fm dbOk emailOk hm
      | cons p rest =>
          rcases h with h | h
          · exact absurd h (by simp)
          · exact turnAfterModel_booking_invalid s u full fm (p :: rest) dbOk emailOk hm rfl h
    rw [hfail, failBranch_calls, failBranch_events]
    exact ⟨rfl, rfl⟩
  · intro hne hk
    rw [turnAfterModel_booking_valid s u full fm d dbOk emailOk hm
          (listNonEmpty_isEmpty d hne) hk,
        bookingBranch_calls]

/-- C1, witness of the amended theorem at a concrete input: a payload
holding only a name makes no persistence call. -/
theorem c1_booking_dispatch_witness :
    hasBookingMarker c1full = true ∧
    (turnAfterModel freshSession "u" c1full none
        (some ([("name", JVal.str "Bob")], OpKind.booking)) true true).calls = [] := by
  refine ⟨by decide, ?_⟩
  exact ((c1_booking_dispatch freshSession "u" c1full none
      [("name", JVal.str "Bob")] true true (by decide)).1 (Or.inr (by decide))).1

/-! Claim C2. -/

/-- C2, counterexample: on an appointment-update turn whose persistence
call fails, last_appointment_timing is still overwritten while
user_details is left alone, refuting the claim that the two fields are
only ever set together and only after a successful persistence
action. -/
theorem c2_counterexample :
    (store_appointment_and_send_emails true false true).1 = false ∧
    (turnAfterModel c2s "change it" c2full none
        (some (c2d, OpKind.update)) false true).session.last_appointment_timing ≠
      c2s.last_appointment_timing ∧
    (turnAfterModel c2s "change it" c2full none
        (some (c2d, OpKind.update)) false true).session.user_details =
      c2s.user_details := by
  decide

/-- C2, amended: on booking-create turns user_details and
last_appointment_timing are set together and only when the persistence
call succeeded (a failed create leaves both unchanged); on
appointment-update turns user_details is never modified and
last_appointment_timing is overwritten with the new timing
unconditionally, whether or not the persistence call succeeded. -/
theorem c2_setting_discipline (s : Session) (u full : String)
    (fm : Option (String × Option BookingData)) (d : BookingData)
    (dbOk emailOk : Bool)
    (hm : (hasBookingMarker full || hasUpdateMarker full) = true) :
    ((turnAfterModel s u full fm (some (d, OpKind.update)) dbOk emailOk).session.user_details =
        s.user_details) ∧
    (d ≠ [] → (requiredKeysFor OpKind.update).all (fun k => hasKey d k) = true →
      (turnAfterModel s u full fm (some (d, OpKind.update)) dbOk emailOk).session.last_appointment_timing =
        jToOpt (getJ d "new_timing")) ∧
    (dbOk = false →
      (turnAfterModel s u full fm (some (d, OpKind.booking)) dbOk emailOk).session.user_details =
          s.user_details ∧
      (turnAfterModel s u full fm (some (d, OpKind.booking)) dbOk emailOk).session.last_appointment_timing =
          s.last_appointment_timing) ∧
    (dbOk = true → d ≠ [] →
      (requiredKeysFor OpKind.booking).all (fun k => hasKey d k) = true →
      (turnAfterModel s u full fm (some (d, OpKind.booking)) dbOk emailOk).session.user_details =
          some ⟨getJ d "name", getJ d "email", getJ d "phone"⟩ ∧
      (turnAfterModel s u full fm (some (d, OpKind.booking)) dbOk emailOk).session.last_appointment_timing =
          jToOpt (getJ d "timing")) := by
  refine ⟨?_, ?_, ?_, ?_⟩
  · cases d with
    | nil =>
        rw [turnAfterModel_update_empty s u full fm dbOk emailOk hm,
            failBranch_ud, upd_user_details]
    | cons p rest =>
        cases hk : (requiredKeysFor OpKind.update).all (fun k => hasKey (p :: rest) k) with
        | true =>
            rw [turnAfterModel_update_valid s u full fm (p :: rest) dbOk emailOk hm rfl hk,
                updateBranch_ud, upd_user_details]
        | false =>
            rw [turnAfterModel_update_invalid s u full fm (p :: rest) dbOk emailOk hm rfl hk,
                failBranch_ud, upd_user_details]
  · intro hne hk
    rw [turnAfterModel_update_valid s u full fm d dbOk emailOk hm
          (listNonEmpty_isEmpty d hne) hk,
        updateBranch_last]
  · intro hdb
    subst hdb
    cases d with
    | nil =>
        rw [turnAfterModel_booking_empty s u full fm false emailOk hm]
        exact ⟨by rw [failBranch_ud, upd_user_details],
               by rw [failBranch_last, upd_last]⟩
    | cons p rest =>
        cases hk : (requiredKeysFor OpKind.booking).all (fun k => hasKey (p :: rest) k) with
        | true =>
            rw [turnAfterModel_booking_valid s u full fm (p :: rest) false emailOk hm rfl hk]
            exact ⟨by rw [bookingBranch_ud_false, upd_user_details],
                   by rw [bookingBranch_last_false, upd_last]⟩
        | false =>
            rw [turnAfterModel_booking_invalid s u full fm (p :: rest) false emailOk hm rfl hk]
            exact ⟨by rw [failBranch_ud, upd_user_details],
                   by rw [failBranch_last, upd_last]⟩
  · intro hdb hne hk
    subst hdb
    rw [turnAfterModel_booking_valid s u full fm d true emailOk hm
          (listNonEmpty_isEmpty d hne) hk]
    exact ⟨bookingBranch_ud_true _ u full d emailOk,
           bookingBranch_last_true _ u full d emailOk⟩

/-- C2, witness of the amended theorem: a failed update still
overwrites last_appointment_timing. -/
theorem c2_setting_discipline_witness :
    (hasBookingMarker c2full || hasUpdateMarker c2full) = true ∧
    (turnAfterModel c2s "u" c2full none
        (some (c2d, OpKind.update)) false true).session.last_appointment_timing =
      jToOpt (getJ c2d "new_timing") := by
  refine ⟨by decide, ?_⟩
  exact (c2_setting_discipline c2s "u" c2full none c2d false true
      (by decide)).2.1 (by decide) (by decide)

/-! Claim C3. -/

/-- C3, counterexample: a successful booking-create turn (user_details
does get set, witnessing the success path) leaves booking_details
exactly as it was, with the name slot still populated, refuting the
claim that the slot map is reset so that all four fields are absent
afterwards. -/
theorem c3_counterexample :
    (turnAfterModel c3s "u" c3full none
        (some (c3d, OpKind.booking)) true true).session.user_details =
      some ⟨JVal.str "Alice", JVal.str "alice@x.com", JVal.str "12345678"⟩ ∧
    (turnAfterModel c3s "u" c3full none
        (some (c3d, OpKind.booking)) true true).session.booking_details =
      c3s.booking_details ∧
    c3s.booking_details.name = some "Alice" := by
  decide

/-- C3, amended: on every successful booking-create turn the booking
copies name, email and phone into user_details and sets
last_appointment_timing to the booked timing, but the slot map
booking_details is not reset: it is left unchanged. -/
theorem c3_success_effects (s : Session) (u full : String) (d : BookingData)
    (dbOk emailOk : Bool)
    (hb : hasBookingMarker full = true) (hne : d ≠ [])
    (hk : (requiredKeysFor OpKind.booking).all (fun k => hasKey d k) = true)
    (hdb : dbOk = true) :
    (turnAfterModel s u full none (some (d, OpKind.booking)) dbOk emailOk).session.user_details =
        some ⟨getJ d "name", getJ d "email", getJ d "phone"⟩ ∧
    (turnAfterModel s u full none (some (d, OpKind.booking)) dbOk emailOk).session.last_appointment_timing =
        jToOpt (getJ d "timing") ∧
    (turnAfterModel s u full none (some (d, OpKind.booking)) dbOk emailOk).session.booking_details =
        s.booking_details := by
  subst hdb
  have hm : (hasBookingMarker full || hasUpdateMarker full) = true := by
    rw [hb]; rfl
  rw [turnAfterModel_booking_valid s u full none d true emailOk hm
        (listNonEmpty_isEmpty d hne) hk]
  refine ⟨bookingBranch_ud_true _ u full d emailOk,
          bookingBranch_last_true _ u full d emailOk, ?_⟩
  rw [bookingBranch_bd]
  rfl

/-- C3, witness at the Scenario C input. -/
theorem c3_success_effects_witness :
    hasBookingMarker c3full = true ∧
    (turnAfterModel c3s "u" c3full none
        (some (c3d, OpKind.booking)) true true).session.booking_details =
      c3s.booking_details :=
  ⟨by decide,
   (c3_success_effects c3s "u" c3full c3d true true (by decide) (by decide)
      (by decide) rfl).2.2⟩

/-! Claim C4. -/

/-- C4, counterexample: a FORM_UPDATE payload mapping name to null
overwrites the already-filled name slot with null (absent), refuting
the claim that a filled field is never overwritten by a null/empty
payload value. -/
theorem c4_counterexample :
    (update_booking_details c4s ("Ok " ++ c4tag)
        (some (c4tag, some [("name", JVal.null)]))).2.booking_details.name = none ∧
    c4s.booking_details.name = some "Alice" := by
  decide

/-- C4, amended: the FORM_UPDATE merge overwrites each of the four
recognized slot fields with the payload value of its last binding
unconditionally, null and empty values included; keys outside the four
slot names are ignored, and slots without a binding are unchanged. -/
theorem c4_merge_semantics (sl : Slots) (d : BookingData) :
    ((applyFormUpdateData sl d).name =
      match lookupJ d "name" with
      | none => sl.name
      | some v => jToOpt v) ∧
    ((applyFormUpdateData sl d).email =
      match lookupJ d "email" with
      | none => sl.email
      | some v => jToOpt v) ∧
    ((applyFormUpdateData sl d).phone =
      match lookupJ d "phone" with
      | none => sl.phone
      | some v => jToOpt v) ∧
    ((applyFormUpdateData sl d).timing =
      match lookupJ d "timing" with
      | none => sl.timing
      | some v => jToOpt v) :=
  ⟨applyFU_name d sl, applyFU_email d sl, applyFU_phone d sl, applyFU_timing d sl⟩

/-! Claim C5. -/

/-- C5, counterexample: a session whose name slot is populated, whose
last bot message is plain chat (none of the completion, failure or
detail-request phrases occur in it), still has retrieval performed,
refuting the claim that populated slots suppress retrieval. -/
theorem c5_counterexample :
    retrieverCalled c5s "What services do you offer?" = true ∧
    c5s.booking_details.name = some "Alice" ∧
    containsSubstr (lowerStr (lastBot c5s))
      "appointment request has been submitted successfully" = false ∧
    containsSubstr (lowerStr (lastBot c5s))
      "appointment timing has been updated successfully" = false ∧
    containsSubstr (lowerStr (lastBot c5s)) "almost there" = false := by
  decide

/-- C5, amended: the retrieval decision is a function of the history
(in particular the last bot message), the stored user_details and the
user message only; it does not depend on the slot store, and retrieval
is suppressed whenever the booking-in-progress flag inferred from the
last bot message is set. -/
theorem c5_gate :
    (∀ (hist : List HistEntry) (ud : Option Contact) (lat : Option String)
        (bd bd' : Slots) (msg : String),
      retrieverCalled ⟨hist, ud, lat, bd⟩ msg = retrieverCalled ⟨hist, ud, lat, bd'⟩ msg) ∧
    (∀ (s : Session) (msg : String),
      bookingInProgress s = true → retrieverCalled s msg = false) := by
  constructor
  · intro hist ud lat bd bd' msg
    rfl
  · intro s msg h
    unfold retrieverCalled
    rw [h]
    rfl

/-- C5, witness: for a session whose last bot message asked for name
and email, retrieval is suppressed. -/
theorem c5_gate_witness :
    bookingInProgress c5bip = true ∧
    retrieverCalled c5bip "tell me about pricing" = false := by
  refine ⟨by decide, ?_⟩
  exact c5_gate.2 c5bip "tell me about pricing" (by decide)

/-! Claim C6. -/

/-- C6, counterexample: on a turn with a FORM_UPDATE tag and no
completion marker, the history entry records the raw model output, tag
included, refuting the claim that the history never contains a raw
FORM_UPDATE tag substring. -/
theorem c6_counterexample :
    (turnAfterModel freshSession "my name is Jo" c6full c6fm none true true).session.history =
      [⟨"my name is Jo", c6full⟩] ∧
    containsSubstr c6full "FORM_UPDATE:" = true ∧
    hasBookingMarker c6full = false ∧
    hasUpdateMarker c6full = false := by
  decide

/-- C6, amended: only the streamed user-facing event carries the
tag-stripped text; on every turn without a completion marker the
history records the raw model output (FORM_UPDATE tag included, when
present). -/
theorem c6_history_raw (s : Session) (u full : String)
    (fm : Option (String × Option BookingData))
    (ex : Option (BookingData × OpKind)) (dbOk emailOk : Bool)
    (hm : (hasBookingMarker full || hasUpdateMarker full) = false) :
    (turnAfterModel s u full fm ex dbOk emailOk).events =
      [(update_booking_details s full fm).1] ∧
    (turnAfterModel s u full fm ex dbOk emailOk).session.history =
      s.history ++ [⟨u, full⟩] := by
  rw [turnAfterModel_nomarker s u full fm ex dbOk emailOk hm]
  exact ⟨rfl, by rw [show ({ (update_booking_details s full fm).2 with
      history := (update_booking_details s full fm).2.history ++ [⟨u, full⟩] } : Session).history =
        (update_booking_details s full fm).2.history ++ [⟨u, full⟩] from rfl,
    upd_history]⟩

/-- C6, witness: a markerless turn appends the raw output to the
history. -/
theorem c6_history_raw_witness :
    (hasBookingMarker c6nom || hasUpdateMarker c6nom) = false ∧
    (turnAfterModel freshSession "hi" c6nom none none true true).session.history =
      freshSession.history ++ [⟨"hi", c6nom⟩] :=
  ⟨by decide,
   (c6_history_raw freshSession "hi" c6nom none none true true (by decide)).2⟩

/-! Claim C7. -/

/-- C7, confirmed: when every model-call attempt raises, the loop makes
exactly max_retries = 3 attempts with a fixed one-second delay between
consecutive attempts (two sleeps), then the turn emits the static
apology as its only (final) event, records the apology as the bot
history entry, and performs no tag parsing and no persistence call. -/
theorem c7_retry_exhaustion (s : Session) (u : String)
    (f : Nat → AttemptOutcome)
    (fm : Option (String × Option BookingData))
    (ex : Option (BookingData × OpKind)) (dbOk emailOk : Bool)
    (h : ∀ i, i < max_retries → f i = AttemptOutcome.err) :
    runModel f = ⟨none, max_retries - 1⟩ ∧
    generateTurn s u f fm ex dbOk emailOk =
      ⟨[fallbackMsg], { s with history := s.history ++ [⟨u, fallbackMsg⟩] }, []⟩ := by
  have h0 := h 0 (by decide)
  have h1 := h 1 (by decide)
  have h2 := h 2 (by decide)
  have hr : runModel f = ⟨none, max_retries - 1⟩ := by
    unfold runModel
    simp [retryLoop, h0, h1, h2, max_retries]
  refine ⟨hr, ?_⟩
  unfold generateTurn
  rw [hr]

/-- C7, witness: the always-failing model. -/
theorem c7_retry_exhaustion_witness :
    (∀ i, i < max_retries → (fun _ => AttemptOutcome.err) i = AttemptOutcome.err) ∧
    runModel (fun _ => AttemptOutcome.err) = ⟨none, max_retries - 1⟩ :=
  ⟨fun _ _ => rfl,
   (c7_retry_exhaustion freshSession "hello" (fun _ => AttemptOutcome.err)
      none none true true (fun _ _ => rfl)).1⟩

/-! Claim C8. -/

/-- C8, confirmed: on a turn whose output carries a completion marker
but whose payload is unrecoverable (no parse) or missing required
fields, the single final event is the text before the marker followed
by the static technical-issue message, the history records only that
prefix text, the slot store is untouched, and no persistence call is
made. -/
theorem c8_parse_failure (s : Session) (u full : String)
    (ex : Option (BookingData × OpKind)) (dbOk emailOk : Bool)
    (hm : (hasBookingMarker full || hasUpdateMarker full) = true)
    (hex : extractInvalid ex) :
    (turnAfterModel s u full none ex dbOk emailOk).events =
      [stripStr (beforeMarker full
          (if hasUpdateMarker full then "UPDATE_COMPLETE:" else "BOOKING_COMPLETE:")) ++
        "\n\n" ++ techIssueMsg (hasUpdateMarker full)] ∧
    (turnAfterModel s u full none ex dbOk emailOk).session.history =
      s.history ++ [⟨u, stripStr (beforeMarker full
        (if hasUpdateMarker full then "UPDATE_COMPLETE:" else "BOOKING_COMPLETE:"))⟩] ∧
    (turnAfterModel s u full none ex dbOk emailOk).session.booking_details =
      s.booking_details ∧
    (turnAfterModel s u full none ex dbOk emailOk).calls = [] := by
  have hfail : turnAfterModel s u full none ex dbOk emailOk = failBranch s u full := by
    rcases hex with h | ⟨d, op, heq, hbad⟩
    · subst h
      exact turnAfterModel_ex_none s u full none dbOk emailOk hm
    · subst heq
      cases op with
      | update =>
          cases d with
          | nil => exact turnAfterModel_update_empty s u full none dbOk emailOk hm
          | cons p rest =>
              rcases hbad with h | h
              · exact absurd h (by simp)
              · exact turnAfterModel_update_invalid s u full none (p :: rest)
                  dbOk emailOk hm rfl h
      | booking =>
          cases d with
          | nil => exact turnAfterModel_booking_empty s u full none dbOk emailOk hm
          | cons p rest =>
              rcases hbad with h | h
              · exact absurd h (by simp)
              · exact turnAfterModel_booking_invalid s u full none (p :: rest)
                  dbOk emailOk hm rfl h
  rw [hfail, failBranch_events, failBranch_history, failBranch_bd, failBranch_calls]
  exact ⟨rfl, rfl, rfl, rfl⟩

/-- C8, witness at the Scenario E input, the truncated payload. -/
theorem c8_parse_failure_witness :
    (hasBookingMarker c8full || hasUpdateMarker c8full) = true ∧
    extractInvalid (none : Option (BookingData × OpKind)) ∧
    (turnAfterModel freshSession "u" c8full none none true true).session.booking_details =
      freshSession.booking_details := by
  refine ⟨by decide, Or.inl rfl, ?_⟩
  exact (c8_parse_failure freshSession "u" c8full none true true
      (by decide) (Or.inl rfl)).2.2.1

/-! Claim C9. -/

/-- C9, confirmed: a request whose message is missing or blank after
stripping returns the immediate Message-is-required error with no
events, and the session map is identical before and after: no session
is created or mutated. -/
theorem c9_blank_message (m : List (String × Session))
    (data : Option (List (String × String))) (sid : String)
    (f : Nat → AttemptOutcome)
    (fm : Option (String × Option BookingData))
    (ex : Option (BookingData × OpKind)) (dbOk emailOk : Bool)
    (h : stripStr (msgOf data) = "") :
    chatEndpoint m data sid f fm ex dbOk emailOk =
      ⟨some "Message is required", m, []⟩ := by
  unfold chatEndpoint
  rw [h]
  rfl

/-- C9, witness: a whitespace-only message leaves the empty session map
untouched. -/
theorem c9_blank_message_witness :
    stripStr (msgOf (some [("message", "   ")])) = "" ∧
    chatEndpoint [] (some [("message", "   ")]) "sid"
        (fun _ => AttemptOutcome.err) none none true true =
      ⟨some "Message is required", [], []⟩ :=
  ⟨by decide,
   c9_blank_message [] (some [("message", "   ")]) "sid"
      (fun _ => AttemptOutcome.err) none none true true (by decide)⟩

/-! Claim C10. -/

/-- C10, confirmed: store_appointment_and_send_emails returns
success = true exactly when the database write succeeded, for both
create and update mode and regardless of whether the confirmation
e-mails could be sent; e-mail failure never demotes a booking to the
failure path. -/
theorem c10_db_success (is_update dbOk emailOk : Bool) :
    (store_appointment_and_send_emails is_update dbOk emailOk).1 = dbOk := by
  cases dbOk <;> rfl

end FuzzyBackend

